import Mathlib

/-!
Verification development for the shoe-brand backend: a multi-tenant
inventory API with JWT authentication and brand-scoped role-based access
control. The definitions below are a shallow embedding of the controllers
in `src/controllers/userController.js` (shoe CRUD and admin user
management) and `src/controllers/authController.js` (register/login),
together with the Mongoose schemas in `src/models/User.js` and
`src/models/Shoe.js`.

Request-body fields are JavaScript values that may be absent: a field is
an `Option`, with `none` standing for `undefined`. JavaScript truthiness
for strings (`""` and `undefined` are falsy) and numbers (`0` is falsy)
is embedded explicitly, because the controllers merge updates with the
`x || y` idiom.
-/

namespace ShoeBrand

/-- JS truthiness of an optional string: `undefined` and `""` are falsy. -/
def strTruthy : Option String → Bool
  | none => false
  | some s => s ≠ ""

/-- JS truthiness of an optional number: `undefined` and `0` are falsy. -/
def intTruthy : Option Int → Bool
  | none => false
  | some n => n ≠ 0

/-- JS strict equality `===` on string-or-undefined values. -/
def optStrEq : Option String → Option String → Bool
  | none, none => true
  | some a, some b => a == b
  | _, _ => false

/-- The JS merge idiom `x || d` for an optional string updating a required
string field: the body value when truthy, else the previous value. -/
def jsOrStr (x : Option String) (d : String) : String :=
  match x with
  | some s => if s ≠ "" then s else d
  | none => d

/-- The JS merge idiom `x || d` for an optional string updating an optional
string field (e.g. `description`). -/
def jsOrStrOpt (x d : Option String) : Option String :=
  if strTruthy x then x else d

/-- The JS merge idiom `x || d` for an optional number updating a required
number field: a body value of `0` is falsy, so the previous value is kept. -/
def jsOrInt (x : Option Int) (d : Int) : Int :=
  match x with
  | some n => if n ≠ 0 then n else d
  | none => d

/-- A shoe document (`src/models/Shoe.js`): `name`, `brand`, `price`
required; `description` and `image` optional. The Mongo `_id` is `id`. -/
structure Shoe where
  id : Nat
  name : String
  price : Int
  description : Option String
  brand : String
  image : Option String
deriving DecidableEq, Repr

/-- Allowed brands: the `enum` of the `brand` path in the shoe schema. -/
def shoeBrandEnum : List String := ["Nike", "Adidas", "Puma"]

/-- Mongoose validation run by `Shoe.create` and `shoe.save()`: `name` is a
required (hence non-empty) string and `brand` must be in the enum. `price`
is always a number in this embedding, so its required check holds. -/
def validShoe (s : Shoe) : Bool :=
  s.name ≠ "" && s.brand ∈ shoeBrandEnum

/-- The principal decoded from a verified token and attached to `req.user`:
`{ userId, brand, role }`. `brand` is `undefined` for users stored without
one. -/
structure Principal where
  userId : Nat
  role : String
  brand : Option String
deriving DecidableEq, Repr

/-- A shoe-endpoint request body `{ name, price, description, brand }`;
each field may be absent. -/
structure ShoeBody where
  name : Option String
  price : Option Int
  description : Option String
  brand : Option String
deriving DecidableEq, Repr

/-- Responses of the shoe controllers, tagged with their payloads. -/
inductive ShoeResp where
  | created (s : Shoe)
  | ok (s : Shoe)
  | okMsg (m : String)
  | forbidden (m : String)
  | notFound (m : String)
  | serverError (m : String)
deriving DecidableEq, Repr

/-- HTTP status of a shoe response. -/
def ShoeResp.status : ShoeResp → Nat
  | .created _ => 201
  | .ok _ => 200
  | .okMsg _ => 200
  | .forbidden _ => 403
  | .notFound _ => 404
  | .serverError _ => 500

/-- `Shoe.findById`: first document with the given id (ids are unique in
the store). -/
def findShoe (store : List Shoe) (sid : Nat) : Option Shoe :=
  store.find? (fun s => s.id == sid)

/-- Persisting `shoe.save()` on an existing document: replace the document
with that id. -/
def saveShoeIn (store : List Shoe) (s : Shoe) : List Shoe :=
  store.map (fun t => if t.id == s.id then s else t)

/-- `getShoes`: `super_admin` gets the unfiltered store; any other role is
queried with `{ brand: req.user.brand }`. Mongoose strips an `undefined`
value from a query filter, so a `none` brand matches every document. -/
def brandQueryMatch (qbrand : Option String) (s : Shoe) : Bool :=
  match qbrand with
  | some b => s.brand == b
  | none => true

/-- GET /api/shoes (`exports.getShoes`). -/
def getShoes (p : Principal) (store : List Shoe) : List Shoe :=
  if p.role == "super_admin" then store
  else store.filter (brandQueryMatch p.brand)

/-- POST /api/shoes/create (`exports.createShoe`): a `brand_user` whose
body brand differs (JS `!==`) from their own brand gets 403; otherwise
`Shoe.create` validates and inserts, any validation failure being caught
as a 500. `freshId` is the Mongo-generated `_id`. -/
def createShoe (p : Principal) (body : ShoeBody) (store : List Shoe)
    (freshId : Nat) : ShoeResp × List Shoe :=
  if p.role == "brand_user" && !(optStrEq body.brand p.brand) then
    (.forbidden "Cannot create shoe for another brand", store)
  else
    match body.name, body.price, body.brand with
    | some n, some pr, some b =>
      let s : Shoe := ⟨freshId, n, pr, body.description, b, none⟩
      if validShoe s then (.created s, store ++ [s])
      else (.serverError "Error creating shoe", store)
    | _, _, _ => (.serverError "Error creating shoe", store)

/-- The field-level partial update of `updateShoe`: each field takes the
body value when truthy and keeps the previous value otherwise
(`shoe.x = x || shoe.x`). -/
def mergeShoe (shoe : Shoe) (body : ShoeBody) : Shoe :=
  { shoe with
    name := jsOrStr body.name shoe.name
    price := jsOrInt body.price shoe.price
    description := jsOrStrOpt body.description shoe.description
    brand := jsOrStr body.brand shoe.brand }

/-- PUT /api/shoes/:id (`exports.updateShoe`): 404 when absent; 403 for a
`brand_user` on a foreign-brand shoe; 403 for a `brand_user` supplying a
truthy body brand different from their own; otherwise merge and save,
validation failure of the merged document being caught as a 500. -/
def updateShoe (p : Principal) (sid : Nat) (body : ShoeBody)
    (store : List Shoe) : ShoeResp × List Shoe :=
  match findShoe store sid with
  | none => (.notFound "Shoe not found", store)
  | some shoe =>
    if p.role == "brand_user" && !(optStrEq (some shoe.brand) p.brand) then
      (.forbidden "Not authorized to update this shoe", store)
    else if p.role == "brand_user" && strTruthy body.brand
        && !(optStrEq body.brand p.brand) then
      (.forbidden "Cannot change shoe brand to another brand", store)
    else
      let s' := mergeShoe shoe body
      if validShoe s' then (.ok s', saveShoeIn store s')
      else (.serverError "Error updating shoe", store)

/-- DELETE /api/shoes/:id (`exports.deleteShoe`): 404 when absent; 403 for
a `brand_user` on a foreign-brand shoe; otherwise `deleteOne` removes the
document. -/
def deleteShoe (p : Principal) (sid : Nat) (store : List Shoe) :
    ShoeResp × List Shoe :=
  match findShoe store sid with
  | none => (.notFound "Shoe not found", store)
  | some shoe =>
    if p.role == "brand_user" && !(optStrEq (some shoe.brand) p.brand) then
      (.forbidden "Not authorized to delete this shoe", store)
    else
      (.okMsg "Shoe deleted", store.filter (fun s => !(s.id == sid)))

/-- A user document (`src/models/User.js`): `name`, `email`, `password`
required strings; `brand` required exactly when `role` is `brand_user`;
`role` restricted to the enum with default `brand_user`. -/
structure User where
  id : Nat
  name : String
  email : String
  password : String
  brand : Option String
  role : String
deriving DecidableEq, Repr

/-- The `enum` of the `role` path in the user schema. -/
def userRoleEnum : List String := ["brand_user", "super_admin"]

/-- Mongoose `required` check for an optional string path: present and
non-empty. -/
def requiredString : Option String → Bool
  | none => false
  | some s => s ≠ ""

/-- Mongoose validation run by `newUser.save()` and `user.save()`:
required strings non-empty, `role` in its enum, and `brand` present and
non-empty when the role is `brand_user` (the conditional `required` of
`src/models/User.js`). -/
def validUser (u : User) : Bool :=
  u.name ≠ "" && u.email ≠ "" && u.password ≠ "" &&
  u.role ∈ userRoleEnum &&
  (if u.role = "brand_user" then requiredString u.brand else true)

/-- Modelled from the spec: bcrypt (`bcryptjs`, an external library, not
part of this repository) is a salted one-way hash; here it is embedded as
an injective tagging function, which preserves the only property the
controllers rely on: `verify(pw, hash(pw')) = (pw = pw')`. -/
def bcryptHash (pw : String) : String := "$2b$10$" ++ pw

/-- Modelled from the spec: `bcrypt.compare` verifies a plaintext against
a digest. -/
def bcryptCompare (pw digest : String) : Bool := digest == bcryptHash pw

/-- The claims `generateToken` signs into the JWT payload:
`{ userId, brand, role }` (`src/controllers/authController.js`). -/
structure TokenClaims where
  userId : Nat
  brand : Option String
  role : String
deriving DecidableEq, Repr

/-- Modelled from the spec: a signed token (the `jsonwebtoken` library is
external to this repository). The Token Codec's contract is that a token
is tamper-evident and, when verified with the signing secret, yields
exactly the claims it was signed over. -/
structure SignedToken where
  claims : TokenClaims
  signedWith : String
deriving DecidableEq, Repr

/-- Modelled from the spec: `jwt.sign(claims, secret)`. -/
def jwtSign (c : TokenClaims) (secret : String) : SignedToken :=
  ⟨c, secret⟩

/-- Modelled from the spec: `jwt.verify(token, secret)` returns the claims
exactly when the token was signed with the same secret. -/
def jwtVerify (t : SignedToken) (secret : String) : Option TokenClaims :=
  if t.signedWith == secret then some t.claims else none

/-- `generateToken(user)` in `authController.js`: signs
`{ userId: user._id, brand: user.brand, role: user.role }`. -/
def generateToken (secret : String) (u : User) : SignedToken :=
  jwtSign ⟨u.id, u.brand, u.role⟩ secret

/-- The password-free user object returned by register/login (the
`{ id, name, email, brand, role }` literal) and by `getUsers` via
`.select('-password')`: it has no password field at all. -/
structure UserView where
  id : Nat
  name : String
  email : String
  brand : Option String
  role : String
deriving DecidableEq, Repr

/-- Projection of a stored user to its public view. -/
def userView (u : User) : UserView :=
  ⟨u.id, u.name, u.email, u.brand, u.role⟩

/-- A registration request body
`{ name, email, password, brand?, role? }`; each field may be absent. -/
structure RegBody where
  name : Option String
  email : Option String
  password : Option String
  brand : Option String
  role : Option String
deriving DecidableEq, Repr

/-- Responses of the auth controllers. -/
inductive AuthResp where
  | created (view : UserView) (token : SignedToken)
  | okUser (view : UserView) (token : SignedToken)
  | badRequest (m : String)
  | serverError (m : String)
deriving DecidableEq, Repr

/-- HTTP status of an auth response. -/
def AuthResp.status : AuthResp → Nat
  | .created _ _ => 201
  | .okUser _ _ => 200
  | .badRequest _ => 400
  | .serverError _ => 500

/-- `User.findOne({ email })` for a concrete string email. -/
def findByEmail (store : List User) (e : String) : Option User :=
  store.find? (fun u => u.email == e)

/-- POST /api/auth/register (`exports.register`). The route carries no
authentication middleware and the handler consults no principal: the
embedding takes no `Principal` argument. The `role` destructuring default
applies only when the body omits the field. Presence checks use JS
truthiness; a duplicate email is rejected before any insertion; the saved
document's `brand` is set only for `brand_user` roles; Mongoose
validation failure on save (e.g. a role outside the enum) is caught as a
500. `freshId` is the Mongo-generated `_id`. -/
def register (secret : String) (freshId : Nat) (body : RegBody)
    (store : List User) : AuthResp × List User :=
  let role := body.role.getD "brand_user"
  if !(strTruthy body.name) || !(strTruthy body.email)
      || !(strTruthy body.password) then
    (.badRequest "Name, email, and password are required.", store)
  else if role == "brand_user" && !(strTruthy body.brand) then
    (.badRequest "Brand is required for brand users.", store)
  else
    match body.name, body.email, body.password with
    | some n, some e, some pw =>
      if (findByEmail store e).isSome then
        (.badRequest "Email already exists.", store)
      else
        let newUser : User :=
          ⟨freshId, n, e, bcryptHash pw,
           (if role = "brand_user" then body.brand else none), role⟩
        if validUser newUser then
          (.created (userView newUser) (generateToken secret newUser),
           store ++ [newUser])
        else
          (.serverError "Server error during registration", store)
    | _, _, _ =>
      (.badRequest "Name, email, and password are required.", store)

/-- POST /api/auth/login (`exports.login`), for string-valued `email` and
`password` body fields: unknown email and failed password verification
both yield the same generic 400; success returns the public view and a
fresh token. The store is never modified. -/
def login (secret : String) (email password : String)
    (store : List User) : AuthResp :=
  match findByEmail store email with
  | none => .badRequest "Invalid credentials."
  | some user =>
    if !(bcryptCompare password user.password) then
      .badRequest "Invalid credentials."
    else
      .okUser (userView user) (generateToken secret user)

/-- Responses of the admin user-management controller. -/
inductive UserResp where
  | okFull (u : User)
  | okMsg (m : String)
  | notFound (m : String)
  | serverError (m : String)
deriving DecidableEq, Repr

/-- HTTP status of a user-management response. -/
def UserResp.status : UserResp → Nat
  | .okFull _ => 200
  | .okMsg _ => 200
  | .notFound _ => 404
  | .serverError _ => 500

/-- GET /api/users (`exports.getUsers`): all users with the password field
excluded (`.select('-password')`). -/
def getUsers (store : List User) : List UserView :=
  store.map (fun u => ⟨u.id, u.name, u.email, u.brand, u.role⟩)

/-- The merge performed by `updateUser`:
`user.brand = brand || user.brand; user.role = role || user.role`. -/
def mergeUser (u : User) (bBrand bRole : Option String) : User :=
  { u with brand := jsOrStrOpt bBrand u.brand
           role := jsOrStr bRole u.role }

/-- PUT /api/users/:id (`exports.updateUser`): 404 when the user is
absent; otherwise merge `brand`/`role` with the falsy-keeps-old idiom and
save, returning the FULL updated document (password hash included);
validation failure on save is caught as a 500. -/
def updateUser (uid : Nat) (bBrand bRole : Option String)
    (store : List User) : UserResp × List User :=
  match store.find? (fun u => u.id == uid) with
  | none => (.notFound "User not found", store)
  | some u =>
    if validUser (mergeUser u bBrand bRole) then
      (.okFull (mergeUser u bBrand bRole),
       store.map (fun v =>
         if v.id == uid then mergeUser u bBrand bRole else v))
    else
      (.serverError "Error updating user", store)

/-- The spec's data-model invariant on a single user: a `brand_user` has a
non-empty brand, and a `super_admin` has its brand unset. -/
def userInvFull (u : User) : Bool :=
  (if u.role = "brand_user" then requiredString u.brand else true) &&
  (if u.role = "super_admin" then u.brand == none else true)

/-- The weaker half of the invariant: a `brand_user` has a non-empty
brand. -/
def userInvWeak (u : User) : Bool :=
  if u.role = "brand_user" then requiredString u.brand else true

/-- Number of stored users carrying a given email. -/
def countEmail (store : List User) (e : String) : Nat :=
  (store.filter (fun u => u.email == e)).length

/-- Fixture: a `brand_user` principal for brand Nike. -/
def pNike : Principal := ⟨1, "brand_user", some "Nike"⟩

/-- Fixture: a `super_admin` principal. -/
def pAdmin : Principal := ⟨2, "super_admin", none⟩

/-- Fixture: a stored Adidas shoe. -/
def shoeAdidas : Shoe := ⟨1, "Samba", 90, none, "Adidas", none⟩

/-- Fixture: a stored Nike shoe. -/
def shoeNike : Shoe := ⟨2, "Air Max", 120, none, "Nike", none⟩

/-- Fixture: a stored Nike brand user. -/
def userNikeA : User :=
  ⟨1, "Alice", "alice@x.com", bcryptHash "pw123", some "Nike", "brand_user"⟩

/-- C1: a `brand_user` whose brand differs from the target shoe's brand
(for Update/Delete) or from the requested brand (for Create) receives
Forbidden — `ShoeResp.status` of all three responses is 403 — and the
store is returned unchanged, for every request body. -/
theorem createUpdateDelete_cross_brand_forbidden
    (p : Principal) (store : List Shoe) (body : ShoeBody) (sid : Nat)
    (sh : Shoe) (freshId : Nat)
    (hrole : p.role = "brand_user")
    (hfind : findShoe store sid = some sh)
    (hown : optStrEq (some sh.brand) p.brand = false)
    (hbody : optStrEq body.brand p.brand = false) :
    createShoe p body store freshId
      = (.forbidden "Cannot create shoe for another brand", store) ∧
    updateShoe p sid body store
      = (.forbidden "Not authorized to update this shoe", store) ∧
    deleteShoe p sid store
      = (.forbidden "Not authorized to delete this shoe", store) := by
  refine ⟨?_, ?_, ?_⟩ <;>
    simp [createShoe, updateShoe, deleteShoe, hrole, hfind, hown, hbody]

/-- C1 witness: the Nike brand user is refused Create/Update/Delete on
the Adidas shoe, with the store untouched. -/
theorem createUpdateDelete_cross_brand_forbidden_witness :
    createShoe pNike ⟨some "X", some 10, none, some "Adidas"⟩ [shoeAdidas] 7
      = (.forbidden "Cannot create shoe for another brand", [shoeAdidas]) ∧
    updateShoe pNike 1 ⟨some "X", some 10, none, some "Adidas"⟩ [shoeAdidas]
      = (.forbidden "Not authorized to update this shoe", [shoeAdidas]) ∧
    deleteShoe pNike 1 [shoeAdidas]
      = (.forbidden "Not authorized to delete this shoe", [shoeAdidas]) :=
  createUpdateDelete_cross_brand_forbidden pNike [shoeAdidas]
    ⟨some "X", some 10, none, some "Adidas"⟩ 1 shoeAdidas 7
    rfl (by decide) (by decide) (by decide)

/-- C2: List returns the whole store to a `super_admin` and exactly the
shoes of the principal's brand to a `brand_user`; in particular a
`brand_user` never receives a shoe of a different brand. -/
theorem getShoes_brand_scoping
    (p : Principal) (store : List Shoe) (b : String) :
    (p.role = "super_admin" → getShoes p store = store) ∧
    (p.role = "brand_user" → p.brand = some b →
      getShoes p store = store.filter (fun s => s.brand == b) ∧
      ∀ s ∈ getShoes p store, s.brand = b) := by
  constructor
  · intro h
    simp [getShoes, h]
  · intro hr hb
    have hq : getShoes p store = store.filter (fun s => s.brand == b) := by
      simp only [getShoes, hr, hb]
      rfl
    refine ⟨hq, ?_⟩
    intro s hs
    rw [hq] at hs
    have := List.of_mem_filter hs
    simpa using this

/-- C2 witness: the super admin sees both shoes; the Nike brand user sees
exactly the Nike shoe. -/
theorem getShoes_brand_scoping_witness :
    getShoes pAdmin [shoeAdidas, shoeNike] = [shoeAdidas, shoeNike] ∧
    getShoes pNike [shoeAdidas, shoeNike] = [shoeNike] := by
  constructor
  · exact (getShoes_brand_scoping pAdmin [shoeAdidas, shoeNike] "Nike").1 rfl
  · have h :=
      ((getShoes_brand_scoping pNike [shoeAdidas, shoeNike] "Nike").2 rfl rfl).1
    rw [h]
    decide

/-- A bcrypt digest is never the empty string. -/
theorem bcryptHash_ne_empty (pw : String) : bcryptHash pw ≠ "" := by
  intro h
  have hl := congrArg String.length h
  simp [bcryptHash] at hl
  exact absurd hl.1 (by decide)

/-- The schema's `required` check on an optional string coincides with JS
truthiness. -/
theorem requiredString_eq_strTruthy (x : Option String) :
    requiredString x = strTruthy x := by
  cases x <;> rfl

/-- C3: `register` is reachable without any principal (its embedding takes
none, matching the unauthenticated route) and honours the client-supplied
role: supplying `role = "super_admin"` stores a `super_admin` user and
returns a token whose claims carry role `super_admin`; the role defaults
to `brand_user` exactly when the body omits it. -/
theorem register_honours_supplied_role
    (secret : String) (fid : Nat) (body : RegBody) (store : List User)
    (n e pw : String)
    (hn : body.name = some n) (hn' : n ≠ "")
    (he : body.email = some e) (he' : e ≠ "")
    (hpw : body.password = some pw) (hpw' : pw ≠ "")
    (hfresh : findByEmail store e = none) :
    (body.role = some "super_admin" →
      register secret fid body store =
        (.created ⟨fid, n, e, none, "super_admin"⟩
           (jwtSign ⟨fid, none, "super_admin"⟩ secret),
         store ++ [⟨fid, n, e, bcryptHash pw, none, "super_admin"⟩])) ∧
    (body.role = none → strTruthy body.brand = true →
      register secret fid body store =
        (.created ⟨fid, n, e, body.brand, "brand_user"⟩
           (jwtSign ⟨fid, body.brand, "brand_user"⟩ secret),
         store ++ [⟨fid, n, e, bcryptHash pw, body.brand, "brand_user"⟩])) := by
  constructor
  · intro hrole
    simp [register, hn, he, hpw, hrole, strTruthy, hn', he', hpw', hfresh,
      validUser, userRoleEnum, bcryptHash_ne_empty, generateToken, userView,
      jwtSign]
  · intro hrole hbr
    have hbn : strTruthy (some n) = true := by simp [strTruthy, hn']
    have hbe : strTruthy (some e) = true := by simp [strTruthy, he']
    have hbp : strTruthy (some pw) = true := by simp [strTruthy, hpw']
    simp [register, hn, he, hpw, hrole, hbn, hbe, hbp, hfresh, hbr,
      validUser, userRoleEnum, bcryptHash_ne_empty,
      requiredString_eq_strTruthy, generateToken, userView, jwtSign,
      hn', he']

/-- C3 witness: an unauthenticated body carrying `role: "super_admin"`
creates a stored super admin whose token claims role `super_admin`; a
body omitting `role` is stored as a `brand_user`. -/
theorem register_honours_supplied_role_witness :
    register "sec" 5
        ⟨some "Root", some "root@x.com", some "pw", none, some "super_admin"⟩
        []
      = (.created ⟨5, "Root", "root@x.com", none, "super_admin"⟩
           (jwtSign ⟨5, none, "super_admin"⟩ "sec"),
         [⟨5, "Root", "root@x.com", bcryptHash "pw", none, "super_admin"⟩]) ∧
    register "sec" 6
        ⟨some "Bob", some "bob@x.com", some "pw", some "Puma", none⟩ []
      = (.created ⟨6, "Bob", "bob@x.com", some "Puma", "brand_user"⟩
           (jwtSign ⟨6, some "Puma", "brand_user"⟩ "sec"),
         [⟨6, "Bob", "bob@x.com", bcryptHash "pw", some "Puma",
           "brand_user"⟩]) := by
  constructor
  · exact (register_honours_supplied_role "sec" 5
      ⟨some "Root", some "root@x.com", some "pw", none, some "super_admin"⟩
      [] "Root" "root@x.com" "pw" rfl (by decide) rfl (by decide) rfl
      (by decide) rfl).1 rfl
  · exact (register_honours_supplied_role "sec" 6
      ⟨some "Bob", some "bob@x.com", some "pw", some "Puma", none⟩
      [] "Bob" "bob@x.com" "pw" rfl (by decide) rfl (by decide) rfl
      (by decide) rfl).2 rfl (by decide)

/-- C6: a login whose email matches no stored user and a login whose
email matches a user but whose password fails verification produce
identical responses: the same 400 status and the same generic message. -/
theorem login_failure_indistinguishable
    (secret : String) (store : List User) (e1 pw1 e2 pw2 : String) (u : User)
    (h1 : findByEmail store e1 = none)
    (h2 : findByEmail store e2 = some u)
    (h3 : bcryptCompare pw2 u.password = false) :
    login secret e1 pw1 store = .badRequest "Invalid credentials." ∧
    login secret e2 pw2 store = .badRequest "Invalid credentials." ∧
    login secret e1 pw1 store = login secret e2 pw2 store ∧
    (login secret e1 pw1 store).status = 400 := by
  refine ⟨?_, ?_, ?_, ?_⟩ <;>
    simp [login, h1, h2, h3, AuthResp.status]

/-- C6 witness: an unknown email and Alice's email with a wrong password
yield the identical generic 400. -/
theorem login_failure_indistinguishable_witness :
    login "sec" "nobody@x.com" "pw123" [userNikeA]
      = .badRequest "Invalid credentials." ∧
    login "sec" "alice@x.com" "wrong" [userNikeA]
      = .badRequest "Invalid credentials." ∧
    login "sec" "nobody@x.com" "pw123" [userNikeA]
      = login "sec" "alice@x.com" "wrong" [userNikeA] ∧
    (login "sec" "nobody@x.com" "pw123" [userNikeA]).status = 400 :=
  login_failure_indistinguishable "sec" [userNikeA]
    "nobody@x.com" "pw123" "alice@x.com" "wrong" userNikeA
    (by decide) (by decide) (by decide)

/-- C8: whenever `register` answers 201, the returned token verified with
the signing secret decodes to exactly the stored user's id, brand and
role, and the response's user view is that user's public view. -/
theorem register_token_matches_stored_user
    (secret : String) (fid : Nat) (body : RegBody) (store store' : List User)
    (view : UserView) (tok : SignedToken)
    (hreg : register secret fid body store = (.created view tok, store')) :
    ∃ u : User, store' = store ++ [u] ∧
      jwtVerify tok secret = some ⟨u.id, u.brand, u.role⟩ ∧
      view = userView u := by
  unfold register at hreg
  split at hreg
  · simp at hreg
  · split at hreg
    · split at hreg
      · cases hc : (body.role.getD "brand_user" == "brand_user"
            && !(strTruthy body.brand)) <;> simp [hc] at hreg
      · cases hc : (body.role.getD "brand_user" == "brand_user"
            && !(strTruthy body.brand))
        · simp only [hc, Bool.false_eq_true, if_false] at hreg
          split at hreg <;> split at hreg <;>
            first
              | (simp only [Prod.mk.injEq, AuthResp.created.injEq] at hreg
                 obtain ⟨⟨hview, htok⟩, hstore⟩ := hreg
                 refine ⟨_, hstore.symm, ?_, hview.symm⟩
                 rw [← htok]
                 simp [generateToken, jwtSign, jwtVerify])
              | simp at hreg
        · simp [hc] at hreg
    · cases hc : (body.role.getD "brand_user" == "brand_user"
          && !(strTruthy body.brand)) <;>
        simp [hc] at hreg

/-- C8 witness: the concrete super-admin registration's token decodes to
the stored user's claims. -/
theorem register_token_matches_stored_user_witness :
    ∃ u : User,
      [(⟨5, "Root", "root@x.com", bcryptHash "pw", none,
         "super_admin"⟩ : User)] = ([] : List User) ++ [u] ∧
      jwtVerify (jwtSign ⟨5, none, "super_admin"⟩ "sec") "sec"
        = some ⟨u.id, u.brand, u.role⟩ ∧
      (⟨5, "Root", "root@x.com", none, "super_admin"⟩ : UserView)
        = userView u :=
  register_token_matches_stored_user "sec" 5
    ⟨some "Root", some "root@x.com", some "pw", none, some "super_admin"⟩
    [] _ _ _ (by decide)

/-- C4 counterexample: the check `brand && brand !== req.user.brand` skips
a present-but-empty brand. The Nike brand user sends
`{name: "Renamed", brand: ""}` for their own shoe: the body's brand field
is present and differs from `"Nike"`, yet the code answers 200 (not 403)
and the shoe IS modified. -/
theorem update_brand_present_empty_not_forbidden :
    updateShoe pNike 2 ⟨some "Renamed", none, none, some ""⟩ [shoeNike]
      = (.ok ⟨2, "Renamed", 120, none, "Nike", none⟩,
         [⟨2, "Renamed", 120, none, "Nike", none⟩]) ∧
    (updateShoe pNike 2 ⟨some "Renamed", none, none, some ""⟩
        [shoeNike]).fst.status = 200 ∧
    (updateShoe pNike 2 ⟨some "Renamed", none, none, some ""⟩
        [shoeNike]).snd ≠ [shoeNike] := by
  decide

/-- C4 (amended): for an Update by a `brand_user` on a shoe of their own
brand, if the body's brand field is present, NON-EMPTY (truthy) and
differs from the principal's brand, the operation answers Forbidden and
leaves the store unchanged. -/
theorem update_brand_hop_forbidden
    (p : Principal) (sid : Nat) (body : ShoeBody) (store : List Shoe)
    (shoe : Shoe) (b : String)
    (hrole : p.role = "brand_user")
    (hfind : findShoe store sid = some shoe)
    (hown : optStrEq (some shoe.brand) p.brand = true)
    (hb : body.brand = some b) (hb' : b ≠ "")
    (hdiff : optStrEq (some b) p.brand = false) :
    updateShoe p sid body store
      = (.forbidden "Cannot change shoe brand to another brand", store) := by
  simp [updateShoe, hfind, hrole, hown, strTruthy, hb, hb', hdiff]

/-- C4 witness: the Nike brand user may not move their own shoe to brand
Adidas. -/
theorem update_brand_hop_forbidden_witness :
    updateShoe pNike 2 ⟨none, none, none, some "Adidas"⟩ [shoeNike]
      = (.forbidden "Cannot change shoe brand to another brand",
         [shoeNike]) :=
  update_brand_hop_forbidden pNike 2 ⟨none, none, none, some "Adidas"⟩
    [shoeNike] shoeNike "Adidas" rfl (by decide) (by decide) rfl
    (by decide) (by decide)

/-- C5: whenever Update answers 200 with a shoe, that shoe keeps the
stored id, each of name/price/description/brand takes the body's value
when truthy and the previous value otherwise, and the store holds the
merged document; in particular `{price: 0}` leaves the price unchanged. -/
theorem update_merge_falsy_keeps_old
    (p : Principal) (sid : Nat) (body : ShoeBody) (store store' : List Shoe)
    (shoe s' : Shoe)
    (hfind : findShoe store sid = some shoe)
    (hok : updateShoe p sid body store = (.ok s', store')) :
    s'.id = shoe.id ∧
    s'.name = (match body.name with
      | some v => if v ≠ "" then v else shoe.name
      | none => shoe.name) ∧
    s'.price = (match body.price with
      | some v => if v ≠ 0 then v else shoe.price
      | none => shoe.price) ∧
    s'.description = (if strTruthy body.description then body.description
      else shoe.description) ∧
    s'.brand = (match body.brand with
      | some v => if v ≠ "" then v else shoe.brand
      | none => shoe.brand) ∧
    store' = saveShoeIn store s' ∧
    (body.price = some 0 → s'.price = shoe.price) := by
  unfold updateShoe at hok
  rw [hfind] at hok
  split at hok
  · simp at hok
  · rename_i sh heq
    injection heq with heq
    subst heq
    split at hok
    · simp at hok
    · split at hok
      · simp at hok
      · cases hv : validShoe (mergeShoe shoe body) <;> simp [hv] at hok
        obtain ⟨hs, hst⟩ := hok
        subst hs
        subst hst
        refine ⟨rfl, rfl, rfl, rfl, rfl, rfl, ?_⟩
        intro hp
        simp [mergeShoe, jsOrInt, hp]

/-- C5 witness: a super-admin update with `{price: 0, description: "d"}`
keeps the stored price 120. -/
theorem update_merge_falsy_keeps_old_witness :
    (⟨2, "Air Max", 120, some "d", "Nike", none⟩ : Shoe).price
      = shoeNike.price :=
  (update_merge_falsy_keeps_old pAdmin 2 ⟨none, some 0, some "d", none⟩
    [shoeNike] [⟨2, "Air Max", 120, some "d", "Nike", none⟩] shoeNike
    ⟨2, "Air Max", 120, some "d", "Nike", none⟩
    (by decide) (by decide)).2.2.2.2.2.2 rfl

/-- If a list has an element satisfying `p` (non-empty filter), `find?`
succeeds. -/
theorem find_isSome_of_filter_length_pos {α : Type} (p : α → Bool)
    (l : List α) (h : 0 < (l.filter p).length) :
    (l.find? p).isSome = true := by
  induction l with
  | nil => simp at h
  | cons a t ih =>
    cases hp : p a
    · rw [List.find?_cons_of_neg _ (by simp [hp])]
      apply ih
      simpa [List.filter_cons, hp] using h
    · rw [List.find?_cons_of_pos _ hp]
      rfl

/-- C7 counterexample: a registration request carrying Alice's existing
email but no name is answered with the missing-field 400, not with
`Email already exists.` (the presence checks run first). The store is
still unchanged. -/
theorem register_duplicate_email_missing_name_counterexample :
    countEmail [userNikeA] "alice@x.com" = 1 ∧
    register "sec" 9 ⟨none, some "alice@x.com", some "pw999", some "Nike",
        none⟩ [userNikeA]
      = (.badRequest "Name, email, and password are required.",
         [userNikeA]) ∧
    (register "sec" 9 ⟨none, some "alice@x.com", some "pw999", some "Nike",
        none⟩ [userNikeA]).fst
      ≠ .badRequest "Email already exists." := by
  decide

/-- C7 (amended): a registration request that passes the field-presence
checks (name/email/password truthy, and brand truthy when the effective
role is `brand_user`) and whose email is already stored is always
answered with the duplicate-email 400; the store is returned unchanged
and still contains exactly one user with that email. -/
theorem register_duplicate_email_rejected
    (secret : String) (fid : Nat) (body : RegBody) (store : List User)
    (n e pw : String)
    (hn : body.name = some n) (hn' : n ≠ "")
    (he : body.email = some e) (he' : e ≠ "")
    (hpw : body.password = some pw) (hpw' : pw ≠ "")
    (hbrand : body.role.getD "brand_user" = "brand_user" →
      strTruthy body.brand = true)
    (hdup : countEmail store e = 1) :
    register secret fid body store
      = (.badRequest "Email already exists.", store) ∧
    countEmail (register secret fid body store).snd e = 1 := by
  have hbn : strTruthy (some n) = true := by simp [strTruthy, hn']
  have hbe : strTruthy (some e) = true := by simp [strTruthy, he']
  have hbp : strTruthy (some pw) = true := by simp [strTruthy, hpw']
  have hfind : (findByEmail store e).isSome = true := by
    apply find_isSome_of_filter_length_pos
    rw [show (List.filter (fun u => u.email == e) store).length
          = countEmail store e from rfl, hdup]
    exact Nat.zero_lt_one
  have hcond : (body.role.getD "brand_user" == "brand_user"
      && !(strTruthy body.brand)) = false := by
    cases hgd : body.role.getD "brand_user" == "brand_user"
    · simp
    · simp [hbrand (by simpa using hgd)]
  have hmain : register secret fid body store
      = (.badRequest "Email already exists.", store) := by
    simp [register, hn, he, hpw, hbn, hbe, hbp, hcond, hfind]
  exact ⟨hmain, by rw [hmain]; exact hdup⟩

/-- C7 witness: a well-formed registration re-using Alice's email is
rejected as a duplicate and the store keeps its single Alice document. -/
theorem register_duplicate_email_rejected_witness :
    register "sec" 9 ⟨some "Eve", some "alice@x.com", some "pw", some "Nike",
        none⟩ [userNikeA]
      = (.badRequest "Email already exists.", [userNikeA]) ∧
    countEmail (register "sec" 9 ⟨some "Eve", some "alice@x.com", some "pw",
        some "Nike", none⟩ [userNikeA]).snd "alice@x.com" = 1 :=
  register_duplicate_email_rejected "sec" 9
    ⟨some "Eve", some "alice@x.com", some "pw", some "Nike", none⟩
    [userNikeA] "Eve" "alice@x.com" "pw" rfl (by decide) rfl (by decide)
    rfl (by decide) (fun _ => by decide) (by decide)

/-- C9 counterexample: the store containing only Alice (a `brand_user`
with brand Nike) satisfies the full invariant, yet the administrative
update `PUT {role: "super_admin"}` succeeds and leaves her brand set, so
the resulting store holds a `super_admin` WITH a brand: `updateUser` does
not preserve the invariant. -/
theorem updateUser_invariant_counterexample :
    ([userNikeA].all userInvFull = true) ∧
    updateUser 1 none (some "super_admin") [userNikeA]
      = (.okFull ⟨1, "Alice", "alice@x.com", bcryptHash "pw123",
           some "Nike", "super_admin"⟩,
         [⟨1, "Alice", "alice@x.com", bcryptHash "pw123", some "Nike",
           "super_admin"⟩]) ∧
    ((updateUser 1 none (some "super_admin") [userNikeA]).snd.all
        userInvFull = false) := by
  decide

/-- The store after `register` is unchanged or extended by one document
that passed Mongoose validation, whose brand is the body's brand for a
`brand_user` role and unset otherwise. -/
theorem register_snd_characterization
    (secret : String) (fid : Nat) (body : RegBody) (store : List User) :
    (register secret fid body store).snd = store ∨
    ∃ u : User, (register secret fid body store).snd = store ++ [u] ∧
      validUser u = true ∧ (u.role = "brand_user" → u.brand = body.brand) ∧
      (u.role ≠ "brand_user" → u.brand = none) := by
  simp only [register]
  repeat' split
  all_goals
    first
      | (left; rfl)
      | (right
         refine ⟨_, rfl, by assumption, fun h => ?_, fun h => ?_⟩ <;>
           simp_all)

/-- A validated user satisfies the `brand_user`-has-brand half of the
invariant. -/
theorem userInvWeak_of_validUser (u : User) (h : validUser u = true) :
    userInvWeak u = true := by
  by_cases hr : u.role = "brand_user"
  · simp [validUser, hr] at h
    simp [userInvWeak, hr, h]
  · simp [userInvWeak, hr]

/-- A validated user whose brand is unset away from `brand_user` roles
satisfies the full invariant. -/
theorem userInvFull_of_validUser (u : User) (h : validUser u = true)
    (hnb : u.role ≠ "brand_user" → u.brand = none) :
    userInvFull u = true := by
  by_cases hr : u.role = "brand_user"
  · simp [validUser, hr] at h
    simp [userInvFull, hr, h]
  · simp [userInvFull, hr, hnb hr]

/-- C9 (amended): `register` preserves the full invariant (a `brand_user`
is stored with a non-empty brand, any other role with brand unset), and
`updateUser` preserves the `brand_user`-has-non-empty-brand half; it does
NOT preserve the `super_admin`-brand-unset half (see the counterexample:
promoting a `brand_user` keeps the brand set). -/
theorem register_updateUser_preserve_brand_invariant
    (secret : String) (fid : Nat) (body : RegBody) (store1 : List User)
    (uid : Nat) (bBrand bRole : Option String) (store2 : List User) :
    (store1.all userInvFull = true →
      (register secret fid body store1).snd.all userInvFull = true) ∧
    (store2.all userInvWeak = true →
      (updateUser uid bBrand bRole store2).snd.all userInvWeak = true) := by
  constructor
  · intro h
    rcases register_snd_characterization secret fid body store1 with
      hcase | ⟨u, hcase, hv, _, hnb⟩
    · rw [hcase]; exact h
    · rw [hcase, List.all_append]
      simp only [Bool.and_eq_true]
      exact ⟨h, by simp [userInvFull_of_validUser u hv hnb]⟩
  · intro h
    unfold updateUser
    split
    · simpa using h
    · rename_i u hfind
      split
      · rename_i hv
        rw [List.all_eq_true] at h ⊢
        intro v hv'
        simp only [List.mem_map] at hv'
        obtain ⟨w, hw, hw'⟩ := hv'
        subst hw'
        by_cases hid : w.id == uid
        · simp only [hid, if_pos rfl]
          simpa using userInvWeak_of_validUser _ hv
        · simp only [hid]
          simp only [Bool.false_eq_true, if_false]
          exact h w hw
      · simpa using h

/-- C9 witness: a concrete registration into the empty store and a
brand-only update of Alice both preserve the respective invariants. -/
theorem register_updateUser_preserve_brand_invariant_witness :
    ((register "sec" 5 ⟨some "Root", some "root@x.com", some "pw", none,
        some "super_admin"⟩ []).snd.all userInvFull = true) ∧
    ((updateUser 1 (some "Adidas") none [userNikeA]).snd.all userInvWeak
      = true) :=
  ⟨(register_updateUser_preserve_brand_invariant "sec" 5
      ⟨some "Root", some "root@x.com", some "pw", none, some "super_admin"⟩
      [] 1 (some "Adidas") none [userNikeA]).1 (by decide),
   (register_updateUser_preserve_brand_invariant "sec" 5
      ⟨some "Root", some "root@x.com", some "pw", none, some "super_admin"⟩
      [] 1 (some "Adidas") none [userNikeA]).2 (by decide)⟩

/-- C10: a successful administrative update answers 200 with the FULL
merged user document — its `password` field is exactly the stored hash —
whereas the register/login/getUsers responses are `UserView`s, which carry
no password data at all: the view of a user is unchanged under any
rewrite of its password, and so is the whole `getUsers` response. -/
theorem updateUser_returns_password_hash
    (uid : Nat) (bBrand bRole : Option String) (store : List User)
    (u : User)
    (hfind : store.find? (fun v => v.id == uid) = some u)
    (hvalid : validUser (mergeUser u bBrand bRole) = true) :
    (updateUser uid bBrand bRole store).fst
      = .okFull (mergeUser u bBrand bRole) ∧
    (mergeUser u bBrand bRole).password = u.password ∧
    ((updateUser uid bBrand bRole store).fst).status = 200 ∧
    (∀ v : User, ∀ pw : String,
      userView { v with password := pw } = userView v) ∧
    (∀ st : List User, ∀ f : User → String,
      getUsers (st.map (fun v => { v with password := f v })) = getUsers st)
    := by
  refine ⟨?_, rfl, ?_, fun v pw => rfl, fun st f => ?_⟩
  · simp [updateUser, hfind, hvalid]
  · simp [updateUser, hfind, hvalid, UserResp.status]
  · simp only [getUsers, List.map_map]
    rfl

/-- C10 witness: updating Alice's brand returns her full document, hash
included, while her view is password-independent. -/
theorem updateUser_returns_password_hash_witness :
    (updateUser 1 (some "Adidas") none [userNikeA]).fst
      = .okFull (mergeUser userNikeA (some "Adidas") none) ∧
    (mergeUser userNikeA (some "Adidas") none).password
      = userNikeA.password :=
  ⟨(updateUser_returns_password_hash 1 (some "Adidas") none [userNikeA]
      userNikeA (by decide) (by decide)).1,
   (updateUser_returns_password_hash 1 (some "Adidas") none [userNikeA]
      userNikeA (by decide) (by decide)).2.1⟩

end ShoeBrand
